import Mathlib

/-!
Verification of the ai-parliament pipeline (src/simulation.py, src/app.py,
src/translations.py) against its specification.

Modelling conventions:
* Generated text, issues, personas, opinions, votes are `List Char`
  (Python strings at the character level).
* Python `s.strip(chars)` / `s.strip()` is `pyStrip` over the predicate
  holding the characters of the argument (no-argument `strip` is modelled
  with the ASCII whitespace characters, which cover every string
  considered here).
* The external text-generation service is an oracle function from the
  data a stage puts into its request to the raw response text; the
  post-processing the code applies to every response
  (`.strip()` then `clean_json_data`, simulation.py lines 36-47) is
  `query_openai_content`.
* `json.loads` is an oracle `List Char → Except (List Char) (List Agent)`;
  `Except.error` stands for a raised exception.
-/

namespace AIParliament

/-- Backtick character (Char 96), written numerically. -/
def backtickChar : Char := Char.ofNat 96

/-- Character set of Python `strip` argument in simulation.py line 13:
backtick, space, newline. -/
def isFenceChar (c : Char) : Bool :=
  c == backtickChar || c == ' ' || c == '\n'

/-- ASCII whitespace characters stripped by Python no-argument `str.strip()`
(space, tab, newline, carriage return, vertical tab, form feed). -/
def isPyWhitespace (c : Char) : Bool :=
  c == ' ' || c == '\t' || c == '\n' || c == '\r' ||
  c == Char.ofNat 11 || c == Char.ofNat 12

/-- Python `s.strip(chars)`: remove from both ends every character
satisfying `p`. Left strip is `List.dropWhile`, right strip is
`List.rdropWhile`. -/
def pyStrip (p : Char → Bool) (s : List Char) : List Char :=
  List.rdropWhile p (s.dropWhile p)

/-- The four-character marker removed by the sanitizer. -/
def jsonTag : List Char := ['j', 's', 'o', 'n']

/-- simulation.py lines 12-18 (`clean_json_data`): strip backtick, space and
newline from both ends; if the result starts with the marker, drop its
first 4 characters. -/
def clean_json_data (json_data : List Char) : List Char :=
  let cleaned_json_data := pyStrip isFenceChar json_data
  if jsonTag.isPrefixOf cleaned_json_data then
    cleaned_json_data.drop 4
  else
    cleaned_json_data

/-- simulation.py line 42: the post-processing applied to every raw response
of the generation service before it is returned to callers. -/
def query_openai_content (raw : List Char) : List Char :=
  clean_json_data (pyStrip isPyWhitespace raw)

/-- Party record (source of simulation.py line 56-61 plus the `persona`
field added by Stage A). -/
structure Party where
  name : List Char
  seats : Nat
  persona : Option (List Char) := none
deriving DecidableEq

/-- Agent (representative) record produced by Stage B; `opinion` is added
by Stage C (simulation.py line 130) and `vote` by the voting stage
(simulation.py line 176). -/
structure Agent where
  party_name : List Char
  agent_persona : List Char
  opinion : Option (List Char) := none
  vote : Option (List Char) := none
deriving DecidableEq

/-- simulation.py line 90: `total_seats = sum(p["seats"] for p in parties)`. -/
def total_seats (parties : List Party) : Nat :=
  (parties.map Party.seats).sum

/-- simulation.py lines 89-113 (`generate_agents_personas`), Stage B.
The external generation call is the oracle `service` from the request
data (the enriched party list and the issue) to the raw response text;
`json_loads` abstracts Python `json.loads`, whose exceptions are
`Except.error`. The parsed value is returned unchanged: no length or
per-party seat-count validation is performed. -/
def generate_agents_personas
    (service : List Party → List Char → List Char)
    (json_loads : List Char → Except (List Char) (List Agent))
    (parties : List Party) (issue : List Char) :
    Except (List Char) (List Agent) :=
  json_loads (query_openai_content (service parties issue))

/-- simulation.py lines 116-132 (`get_opinions`), Stage C: for each agent
in list order, one generation call with the agent's persona as the system
message; the sanitized response is stored as the agent's `opinion` and
appended to the opinions list. Returns the updated agent list together
with the opinions list (the Python code mutates the list in place and
returns the opinions). -/
def get_opinions (service : List Char → List Char → List Char)
    (issue : List Char) : List Agent → List Agent × List (List Char)
  | [] => ([], [])
  | agent :: rest =>
      let response := query_openai_content (service agent.agent_persona issue)
      ({ agent with opinion := some response } ::
        (get_opinions service issue rest).1,
       response :: (get_opinions service issue rest).2)

/-- Newline as a one-character string. -/
def newlineL : List Char := ['\n']

/-- simulation.py line 136: the text `"\n".join(opinions)` embedded in the
Stage D prompt. -/
def form_question_input (opinions : List (List Char)) : List Char :=
  List.intercalate newlineL opinions

/-- simulation.py lines 135-152 (`form_question`), Stage D: one generation
call whose request contains the newline-joined opinions and the issue. -/
def form_question (service : List Char → List Char → List Char)
    (opinions : List (List Char)) (issue : List Char) : List Char :=
  query_openai_content (service (form_question_input opinions) issue)

/-- The exact vote strings of simulation.py line 174. -/
def yesL : List Char := ['Y', 'e', 's']

def noL : List Char := ['N', 'o']

/-- simulation.py lines 173-175: `vote = response.strip()`; if the result
is neither of the two accepted strings it is replaced by the negative
vote. -/
def vote_of_response (response : List Char) : List Char :=
  let vote := pyStrip isPyWhitespace response
  if vote = yesL ∨ vote = noL then vote else noL

/-- simulation.py lines 155-176 (`agent_vote`): joins the opinions with
newlines, then for each agent in list order issues one generation call
(persona as system message, prompt containing the joined opinions and the
question) and records `vote_of_response` of the sanitized response in the
agent's `vote` field. -/
def agent_vote (service : List Char → List Char → List Char → List Char)
    (agents : List Agent) (opinions : List (List Char))
    (question : List Char) : List Agent :=
  let joined_opinions := List.intercalate newlineL opinions
  agents.map fun agent =>
    { agent with
      vote := some (vote_of_response (query_openai_content
        (service agent.agent_persona joined_opinions question))) }

/-- Final result rendered at app.py line 231 (the `voting.passed` /
`voting.failed` branch). -/
inductive FinalResult where
  | PASSED
  | FAILED
deriving DecidableEq

/-- app.py line 229 / simulation.py line 219: `votes.count("Yes")`. -/
def yes_count (votes : List (List Char)) : Nat :=
  votes.count yesL

/-- app.py line 230 / simulation.py line 220: `votes.count("No")`. -/
def no_count (votes : List (List Char)) : Nat :=
  votes.count noL

/-- app.py line 231: PASSED when `yes_count > no_count`, FAILED
otherwise. -/
def final_result (votes : List (List Char)) : FinalResult :=
  if yes_count votes > no_count votes then FinalResult.PASSED
  else FinalResult.FAILED

/-- JSON value of a translation table: either a string or a nested object
(translations.py loads `locales/<lang>.json`). -/
inductive TransValue where
  | str : List Char → TransValue
  | dict : List (List Char × TransValue) → TransValue

/-- Python `dict.get(k)` over an association list (returns `none` when the
key is absent). -/
def assoc_get {α : Type} : List (List Char × α) → List Char → Option α
  | [], _ => none
  | (k, v) :: rest, key => if k = key then some v else assoc_get rest key

/-- Python `key.split('.')`: split at every dot, keeping empty segments
(the result is always non-empty). -/
def pySplitDot : List Char → List (List Char)
  | [] => [[]]
  | c :: rest =>
      if c = '.' then [] :: pySplitDot rest
      else
        match pySplitDot rest with
        | seg :: segs => (c :: seg) :: segs
        | [] => [[c]]

/-- translations.py lines 19-29 loop body: walk the key segments through
the nested table; a missing segment yields the full dotted key as default
and stops (`break` on a non-dict value); a non-dict value stops the walk.
The `*args` formatting of lines 27-28 is outside the lookup claim and is
omitted. -/
def translator_get_loop (key : List Char) :
    List (List Char) → TransValue → TransValue
  | [], value => value
  | k :: rest, TransValue.dict entries =>
      match assoc_get entries k with
      | some (TransValue.dict d) =>
          translator_get_loop key rest (TransValue.dict d)
      | some v => v
      | none => TransValue.str key
  | _ :: _, value => value

/-- translations.py lines 19-29 (`Translator.get`): split the dotted key
and walk the loaded table. -/
def translator_get (translations : List (List Char × TransValue))
    (key : List Char) : TransValue :=
  translator_get_loop key (pySplitDot key) (TransValue.dict translations)

/-- translations.py lines 10-17 (`Translator._load_translations`): the
locales directory is an association list from file base name to parsed
table; a missing active-language file falls back to the English file, and
`none` stands for the propagated FileNotFoundError when that is missing
too. -/
def load_translations
    (locales : List (List Char × List (List Char × TransValue)))
    (language : List Char) : Option (List (List Char × TransValue)) :=
  match assoc_get locales language with
  | some table => some table
  | none => assoc_get locales (("en").toList)

/-- Example English table with one key. -/
def en_table : List (List Char × TransValue) :=
  [((("greet").toList), TransValue.str (("Hello").toList))]

/-- Example Italian table that lacks the key `greet`. -/
def it_table : List (List Char × TransValue) :=
  [((("other").toList), TransValue.str (("x").toList))]

/-- Example locales directory holding both tables. -/
def locales_ce : List (List Char × List (List Char × TransValue)) :=
  [((("en").toList), en_table), ((("it").toList), it_table)]

/-- Client state of the text-generation module: the process-wide API key
(simulation.py line 8 initializes it from the environment). -/
structure ClientConfig where
  api_key : Option (List Char)
deriving DecidableEq

/-- Modelled from the spec: `set_api_key` is imported at app.py line 10
but its definition is absent from src/simulation.py. Per the spec (one
credential per process lifetime, accepted from the operator and installed
into the Text-Generation Client before any stage runs), it installs the
given key as the client's API key. -/
def set_api_key (key : List Char) : ClientConfig :=
  { api_key := some key }

/-- Observable outcome of one run of app.py `main`. -/
structure AppRun where
  api_key_set : Bool
  client : ClientConfig
  simulation_ran : Bool
deriving DecidableEq

/-- app.py `main` restricted to the credential gate and the simulation
trigger (lines 26-27, 138-145, 148-161): `env_key` is the environment
credential read at startup (simulation.py line 8, app.py line 27),
`typed_key` the operator's text input, `submitted_issue` the submitted
form issue. When no credential is set and none is typed, `main` returns
before the form, so the simulation does not run. -/
def app_main (env_key : Option (List Char)) (typed_key : Option (List Char))
    (submitted_issue : Option (List Char)) : AppRun :=
  let client : ClientConfig := { api_key := env_key }
  if env_key.isSome then
    { api_key_set := true, client := client,
      simulation_ran := submitted_issue.isSome }
  else
    match typed_key with
    | some key =>
        { api_key_set := true, client := set_api_key key,
          simulation_ran := submitted_issue.isSome }
    | none =>
        { api_key_set := false, client := client, simulation_ran := false }

end AIParliament

namespace AIParliament

/- Sanitizer lemmas. -/

/-- Dropping the leading run of `p`-characters from a list whose own leading
run has already been dropped does nothing further. -/
theorem dropWhile_rdropWhile_dropWhile (p : Char → Bool) (s : List Char) :
    List.dropWhile p (List.rdropWhile p (s.dropWhile p)) =
      List.rdropWhile p (s.dropWhile p) := by
  rw [List.dropWhile_eq_self_iff]
  intro hl
  have hpre : List.rdropWhile p (s.dropWhile p) <+: s.dropWhile p :=
    List.rdropWhile_prefix p (s.dropWhile p)
  have hlen : 0 < (s.dropWhile p).length :=
    lt_of_lt_of_le hl ( List.IsPrefix.length_le hpre)
  have hhead := List.dropWhile_get_zero_not p s hlen
  simpa [List.get_eq_getElem, List.IsPrefix.getElem hpre] using hhead

/-- Stripping both ends is idempotent. -/
theorem pyStrip_idempotent (p : Char → Bool) (s : List Char) :
    pyStrip p (pyStrip p s) = pyStrip p s := by
  unfold pyStrip
  rw [dropWhile_rdropWhile_dropWhile, List.rdropWhile_idempotent]

/-- C2 counterexample: on the fenced input the sanitizer does NOT return
exactly the five characters of the inner array text; the newline that
followed the marker survives, so the claimed output is wrong. -/
theorem sanitize_fence_example_ne_spec :
    clean_json_data (("```json\n[1,2]\n```").toList) ≠ ("[1,2]").toList := by
  decide

/-- C2 (amended): applying `clean_json_data` to the string made of three
backticks, the marker, a newline, the array text, a newline and three
backticks yields a newline followed by the array text: stripping removes
the backticks from both ends and the trailing newline, leaving the marker
followed by a newline, and dropping the 4 marker characters keeps that
newline. -/
theorem sanitize_fence_example_keeps_newline :
    clean_json_data (("```json\n[1,2]\n```").toList) =
      '\n' :: ("[1,2]").toList := by
  decide

/-- C3 counterexample: the sanitizer is not idempotent. A first pass over
the input consisting of the marker written twice removes only the first
copy of the marker; a second pass removes the second copy as well, so the
two results differ. -/
theorem sanitize_not_idempotent_on_jsonjson :
    clean_json_data (clean_json_data (("jsonjson").toList)) ≠
      clean_json_data (("jsonjson").toList) := by
  decide

/-- C3 (amended): the sanitizer is idempotent on every string whose
stripped form does not begin with the marker; in general it is not
idempotent, because a stripped form beginning with the marker can lose
another leading marker on a second pass. -/
theorem sanitize_idempotent_without_marker (s : List Char)
    (h : jsonTag.isPrefixOf (pyStrip isFenceChar s) = false) :
    clean_json_data (clean_json_data s) = clean_json_data s := by
  simp only [clean_json_data, h, Bool.false_eq_true, if_false,
    pyStrip_idempotent]

theorem sanitize_idempotent_witness :
    clean_json_data (clean_json_data (("abc").toList)) =
      clean_json_data (("abc").toList) :=
  sanitize_idempotent_without_marker (("abc").toList) (by decide)

/-- C9: whenever the stripped form of the input begins with the four
characters of the marker, the sanitizer drops those four characters and
returns the remainder, whether or not the input was a Markdown code
fence. -/
theorem sanitize_overstrips_marker (s : List Char)
    (h : jsonTag.isPrefixOf (pyStrip isFenceChar s) = true) :
    clean_json_data s = (pyStrip isFenceChar s).drop 4 := by
  simp only [clean_json_data, h, if_true]

theorem sanitize_overstrips_witness :
    clean_json_data (("jsonify the data").toList) =
      ("ify the data").toList := by
  have h := sanitize_overstrips_marker (("jsonify the data").toList)
    (by decide)
  rw [h]
  decide

/- Voting stage. -/

/-- Case analysis of the vote fallback of simulation.py lines 173-175. -/
theorem vote_of_response_cases (r : List Char) :
    (vote_of_response r = yesL ↔ pyStrip isPyWhitespace r = yesL) ∧
    (vote_of_response r = yesL ∨ vote_of_response r = noL) := by
  simp only [vote_of_response]
  by_cases h : pyStrip isPyWhitespace r = yesL ∨ pyStrip isPyWhitespace r = noL
  · rw [if_pos h]
    exact ⟨Iff.rfl, h⟩
  · rw [if_neg h]
    exact ⟨iff_of_false (by decide) fun hy => h (Or.inl hy), Or.inr rfl⟩

/-- C1: every agent of the voting stage's output carries a recorded vote
that is the affirmative string exactly when the whitespace-stripped
response of the generation service for that agent is exactly the
affirmative string; for any other stripped response the recorded vote is
the negative string. `agent_vote` and `vote_of_response` are total
functions, so no error is raised in either case. -/
theorem vote_failsafe_default
    (service : List Char → List Char → List Char → List Char)
    (agents : List Agent) (opinions : List (List Char))
    (question : List Char) (a : Agent)
    (ha : a ∈ agent_vote service agents opinions question) :
    (a.vote = some yesL ↔
      pyStrip isPyWhitespace (query_openai_content
        (service a.agent_persona (List.intercalate newlineL opinions)
          question)) = yesL) ∧
    (pyStrip isPyWhitespace (query_openai_content
        (service a.agent_persona (List.intercalate newlineL opinions)
          question)) ≠ yesL →
      a.vote = some noL) := by
  simp only [agent_vote, List.mem_map] at ha
  obtain ⟨a0, -, rfl⟩ := ha
  have h := vote_of_response_cases (query_openai_content
    (service a0.agent_persona (List.intercalate newlineL opinions) question))
  constructor
  · simpa using h.1
  · intro hne
    rcases h.2 with hy | hn
    · exact absurd (h.1.mp hy) hne
    · simpa using hn

theorem vote_failsafe_default_witness :
    Agent.vote
      { party_name := ([] : List Char), agent_persona := [], opinion := none,
        vote := some (vote_of_response (query_openai_content
          (("maybe").toList))) } = some noL := by
  have h := vote_failsafe_default (fun _ _ _ => ("maybe").toList)
    [{ party_name := [], agent_persona := [] }] [] []
    { party_name := [], agent_persona := [], opinion := none,
      vote := some (vote_of_response (query_openai_content
        (("maybe").toList))) }
    (by decide)
  exact h.2 (by decide)

/- Stage B. -/

/-- C6: Stage B returns the parsed response unchanged: whenever the parse
oracle yields a value, that value is the stage's result, even when its
length differs from the seat total, and no data-integrity error is
raised. -/
theorem stageB_no_validation
    (service : List Party → List Char → List Char)
    (json_loads : List Char → Except (List Char) (List Agent))
    (parties : List Party) (issue : List Char) (agents : List Agent)
    (hparse : json_loads (query_openai_content (service parties issue)) =
      Except.ok agents)
    (_hmismatch : agents.length ≠ total_seats parties) :
    generate_agents_personas service json_loads parties issue =
      Except.ok agents := by
  simpa [generate_agents_personas] using hparse

theorem stageB_no_validation_witness :
    generate_agents_personas (fun _ _ => []) (fun _ => Except.ok [])
      [{ name := ("Party A").toList, seats := 4 },
       { name := ("Party B").toList, seats := 3 },
       { name := ("Party C").toList, seats := 2 },
       { name := ("Party D").toList, seats := 1 }] [] =
      Except.ok [] :=
  stageB_no_validation (fun _ _ => []) (fun _ => Except.ok [])
    [{ name := ("Party A").toList, seats := 4 },
     { name := ("Party B").toList, seats := 3 },
     { name := ("Party C").toList, seats := 2 },
     { name := ("Party D").toList, seats := 1 }] [] [] rfl (by decide)

/- Stage C and Stage D. -/

/-- The opinions list returned by Stage C is, entry by entry, the opinion
stored in the corresponding updated agent, in order. -/
theorem get_opinions_map_opinion (service : List Char → List Char → List Char)
    (issue : List Char) (agents : List Agent) :
    (get_opinions service issue agents).1.map Agent.opinion =
      (get_opinions service issue agents).2.map some := by
  induction agents with
  | nil => rfl
  | cons a rest ih => simp [get_opinions, ih]

/-- C7: the opinions list returned by Stage C equals the agents' stored
opinions in original agent-list order, and the joined text Stage D embeds
in its request is exactly those opinions interleaved with newlines in
that order. -/
theorem opinions_order_preserved
    (service : List Char → List Char → List Char)
    (qservice : List Char → List Char → List Char)
    (issue : List Char) (agents : List Agent) :
    ((get_opinions service issue agents).1.map Agent.opinion =
      (get_opinions service issue agents).2.map some) ∧
    (form_question_input ((get_opinions service issue agents).2) =
      List.intercalate newlineL ((get_opinions service issue agents).2)) ∧
    (form_question qservice ((get_opinions service issue agents).2) issue =
      query_openai_content (qservice
        (List.intercalate newlineL ((get_opinions service issue agents).2))
        issue)) :=
  ⟨get_opinions_map_opinion service issue agents, rfl, rfl⟩

/- Frame property of Stage C and the voting stage. -/

/-- C10: Stage C changes only the `opinion` field (and sets it), the
voting stage changes only the `vote` field (and sets it); both preserve
`party_name` and `agent_persona` of every agent, remove no agent and
reorder nothing (the lists of remaining fields are equal position by
position). -/
theorem stages_frame_property
    (serviceC : List Char → List Char → List Char) (issue : List Char)
    (agents : List Agent)
    (serviceV : List Char → List Char → List Char → List Char)
    (opinions : List (List Char)) (question : List Char) :
    ((get_opinions serviceC issue agents).1.map
        (fun a => (a.party_name, a.agent_persona, a.vote)) =
      agents.map (fun a => (a.party_name, a.agent_persona, a.vote))) ∧
    (((get_opinions serviceC issue agents).1.all
        fun a => a.opinion.isSome) = true) ∧
    ((agent_vote serviceV agents opinions question).map
        (fun a => (a.party_name, a.agent_persona, a.opinion)) =
      agents.map (fun a => (a.party_name, a.agent_persona, a.opinion))) ∧
    (((agent_vote serviceV agents opinions question).all
        fun a => a.vote.isSome) = true) := by
  refine ⟨?_, ?_, ?_, ?_⟩
  · induction agents with
    | nil => rfl
    | cons a rest ih => simp [get_opinions, ih]
  · induction agents with
    | nil => rfl
    | cons a rest ih => simp [get_opinions, ih]
  · simp [agent_vote, List.map_map]
  · simp [agent_vote, List.all_map]

/- Vote tally. -/

/-- Counting occurrences of a string in a vote list is the length of the
sublist of entries equal to it. -/
theorem count_eq_filter_length (a : List Char) (l : List (List Char)) :
    l.count a = (l.filter (fun v => v = a)).length := by
  induction l with
  | nil => rfl
  | cons v t ih =>
    by_cases h : v = a <;>
      simp [List.count_cons, List.filter_cons, h, ih]

/-- C8: the yes count is the number of entries equal to the affirmative
string, the no count the number equal to the negative string, and the
final result is PASSED exactly when the yes count exceeds the no count
and FAILED otherwise; on the two concrete vote lists of the
specification the counts and results are as stated. -/
theorem tally_correct (votes : List (List Char)) :
    (yes_count votes = (votes.filter (fun v => v = yesL)).length) ∧
    (no_count votes = (votes.filter (fun v => v = noL)).length) ∧
    (final_result votes = FinalResult.PASSED ↔
      no_count votes < yes_count votes) ∧
    (final_result votes = FinalResult.FAILED ↔
      ¬ no_count votes < yes_count votes) ∧
    (yes_count [("Yes").toList, ("No").toList, ("Yes").toList,
        ("Yes").toList] = 3 ∧
      no_count [("Yes").toList, ("No").toList, ("Yes").toList,
        ("Yes").toList] = 1 ∧
      final_result [("Yes").toList, ("No").toList, ("Yes").toList,
        ("Yes").toList] = FinalResult.PASSED) ∧
    (final_result [("No").toList, ("No").toList, ("Yes").toList] =
      FinalResult.FAILED) := by
  refine ⟨count_eq_filter_length yesL votes, count_eq_filter_length noL votes,
    ?_, ?_, by decide, by decide⟩
  · by_cases h : no_count votes < yes_count votes <;>
      simp [final_result, gt_iff_lt, h]
  · by_cases h : no_count votes < yes_count votes <;>
      simp [final_result, gt_iff_lt, h]

/- Translation lookup. -/

/-- C5 counterexample: with the English table holding `greet` and the
Italian table loaded (its file exists) but lacking `greet`, the lookup
returns the literal key, not the English value: there is no per-key
fallback to the default language. -/
theorem translation_no_per_key_fallback :
    load_translations locales_ce (("it").toList) = some it_table ∧
    translator_get it_table (("greet").toList) =
      TransValue.str (("greet").toList) ∧
    translator_get it_table (("greet").toList) ≠
      TransValue.str (("Hello").toList) := by
  refine ⟨rfl, rfl, fun h => ?_⟩
  have h2 : TransValue.str (("greet").toList) =
      TransValue.str (("Hello").toList) := h
  injection h2 with h3
  exact absurd h3 (by decide)

/-- C5 (amended): the English fallback happens only at table-load time:
when the active language's table is missing from the locales directory,
the whole English table is loaded instead. Key lookup itself has no
per-language fallback: a key whose first segment is absent from the
loaded table yields the literal key string, whatever the English table
holds. -/
theorem translation_fallback_amended
    (locales : List (List Char × List (List Char × TransValue)))
    (lang : List Char) (table : List (List Char × TransValue))
    (key k : List Char) (rest : List (List Char)) :
    (assoc_get locales lang = none →
      load_translations locales lang = assoc_get locales (("en").toList)) ∧
    (pySplitDot key = k :: rest → assoc_get table k = none →
      translator_get table key = TransValue.str key) := by
  constructor
  · intro h
    simp [load_translations, h]
  · intro hsplit hget
    simp [translator_get, hsplit, translator_get_loop, hget]

theorem translation_fallback_witness :
    load_translations locales_ce (("fr").toList) =
      assoc_get locales_ce (("en").toList) ∧
    translator_get it_table (("salute").toList) =
      TransValue.str (("salute").toList) :=
  ⟨(translation_fallback_amended locales_ce (("fr").toList) it_table
      (("salute").toList) (("salute").toList) []).1 rfl,
   (translation_fallback_amended locales_ce (("fr").toList) it_table
      (("salute").toList) (("salute").toList) []).2 rfl rfl⟩

/- API-key bootstrap. -/

/-- C4: with no credential in the environment, the simulation runs only
when the operator's typed key has been installed into the client: if the
run happened the client holds a key and the gate is marked set; if
nothing was typed the simulation did not run; and a typed key is exactly
the key installed into the client. -/
theorem api_key_bootstrap (typed_key : Option (List Char))
    (submitted_issue : Option (List Char)) :
    ((app_main none typed_key submitted_issue).simulation_ran = true →
      (app_main none typed_key submitted_issue).client.api_key.isSome =
        true ∧
      (app_main none typed_key submitted_issue).api_key_set = true) ∧
    (typed_key = none →
      (app_main none typed_key submitted_issue).simulation_ran = false) ∧
    (∀ key, typed_key = some key →
      (app_main none typed_key submitted_issue).client.api_key =
        some key) := by
  cases typed_key <;> simp [app_main, set_api_key]

theorem api_key_bootstrap_witness :
    (app_main none (some (("sk-test").toList))
        (some (("park").toList))).client.api_key =
      some (("sk-test").toList) :=
  (api_key_bootstrap (some (("sk-test").toList))
    (some (("park").toList))).2.2 (("sk-test").toList) rfl

end AIParliament
